import Mathlib

/-!
Shallow embedding of `src/services/auth/FirebaseAuthManager.ts`.

The manager bridges a Firebase identity provider to a host controller
(`ClineProvider`).  We model the observable world as:
  * an optional host-controller state (`none` models a dead `WeakRef`),
  * the Firebase client state (current user, whether the auth-state
    listener has been registered),
  * a trace of the externally observable effects (host-controller calls,
    provider calls, `console.error` logging).
The behaviour of the external collaborators (host controller secret
storage / state, provider sign-in and sign-out results, persistence-mode
setting) is supplied by an environment `FirebaseEnv` of result oracles.
Plain `console.log` calls carry no state and are not traced; `console.error`
calls are traced as `Event.logError` since the spec distinguishes
"logged only" failure handling.
-/

namespace ClineAuth

/-- Source: `export interface UserInfo` — the public profile stored in host state. -/
structure UserInfo where
  displayName : Option String
  email : Option String
  photoURL : Option String
deriving Repr, DecidableEq

/-- The relevant fields of the provider's `User` object (firebase/auth). -/
structure User where
  uid : String
  displayName : Option String
  email : Option String
  photoURL : Option String
deriving Repr, DecidableEq

/-- The profile object built at the two `setUserInfo` call sites of the source:
`{ displayName: u.displayName, email: u.email, photoURL: u.photoURL }`. -/
def profileOf (u : User) : UserInfo :=
  ⟨u.displayName, u.email, u.photoURL⟩

/-- Externally observable effects of the manager, in order of occurrence. -/
inductive Event where
  | getSecret (key : String)
  | setAuthToken (v : Option String)
  | setUserInfo (v : Option UserInfo)
  | postStateToWebview
  | fbSetPersistence
  | fbSignIn (token : String)
  | fbSignOut
  | disposed (id : Nat)
  | logError (msg : String)
deriving Repr, DecidableEq

/-- Recognizes a provider sign-in attempt event. -/
def Event.isFbSignIn : Event → Bool
  | Event.fbSignIn _ => true
  | _ => false

/-- Recognizes a provider sign-out attempt event. -/
def Event.isFbSignOut : Event → Bool
  | Event.fbSignOut => true
  | _ => false

/-- Recognizes a secret-storage read event. -/
def Event.isGetSecret : Event → Bool
  | Event.getSecret _ => true
  | _ => false

/-- Recognizes a `setAuthToken` call event (write or clear). -/
def Event.isSetAuthToken : Event → Bool
  | Event.setAuthToken _ => true
  | _ => false

/-- Recognizes a `setAuthToken` call that writes a present token value
(as opposed to clearing with `undefined`). -/
def Event.isTokenWrite : Event → Bool
  | Event.setAuthToken (some _) => true
  | _ => false

/-- Modelled from the spec: the host controller (`ClineProvider`, not under
`src/`) owns a persisted secret token and an optional user profile; the
external interface is `getSecret(key) -> text or absent`,
`setAuthToken(text or absent)` (writes/clears the persisted token) and
`setUserInfo(UserProfile or absent)` (writes/clears the profile). -/
structure HostState where
  userInfo : Option UserInfo
  authToken : Option String
deriving Repr, DecidableEq

/-- State of the Firebase client visible to the manager. -/
structure FirebaseState where
  currentUser : Option User
  listenerRegistered : Bool
deriving Repr, DecidableEq

/-- Result oracles for the external collaborators: whether
`setPersistence` succeeds, the outcome of `signInWithCustomToken` for each
token (`some u` = resolves with user `u`; `none` = rejects), and whether
provider `signOut` succeeds. -/
structure FirebaseEnv where
  persistOk : Bool
  signInResult : String → Option User
  signOutOk : Bool

/-- The whole observable world: optional host state (the `WeakRef` target),
Firebase state, and the effect trace. -/
structure World where
  host : Option HostState
  fb : FirebaseState
  trace : List Event
deriving Repr, DecidableEq

/-- Errors a provider call can reject with; the manager's explicit
operations propagate them to their direct caller. -/
inductive AuthError where
  | signInError
  | signOutError
deriving Repr, DecidableEq

/-- Modelled from the spec: `provider.getSecret("authToken")` reads the
persisted token from the host controller's secret storage. -/
def hostGetSecret (key : String) (w : World) : Option String × World :=
  ((w.host.bind fun s => if key = "authToken" then s.authToken else none),
   { w with trace := w.trace ++ [Event.getSecret key] })

/-- Modelled from the spec: `provider.setAuthToken(v)` writes (`some`) or
clears (`none`, i.e. `undefined`) the persisted token. -/
def hostSetAuthToken (v : Option String) (w : World) : World :=
  { w with host := w.host.map fun s => { s with authToken := v },
           trace := w.trace ++ [Event.setAuthToken v] }

/-- Modelled from the spec: `provider.setUserInfo(v)` writes (`some`) or
clears (`none`, i.e. `undefined`) the profile in host state. -/
def hostSetUserInfo (v : Option UserInfo) (w : World) : World :=
  { w with host := w.host.map fun s => { s with userInfo := v },
           trace := w.trace ++ [Event.setUserInfo v] }

/-- Modelled from the spec: `provider.postStateToWebview()` pushes the full
host state to the presentation layer (no state the model tracks changes). -/
def hostPostStateToWebview (w : World) : World :=
  { w with trace := w.trace ++ [Event.postStateToWebview] }

/-- The raw provider call `signInWithCustomToken(this.auth, token)`: on
success the provider's current user becomes the signed-in user; on failure
it rejects and the client state is unchanged.  The attempt is traced either
way.  (The provider dispatches the auth-state callback asynchronously; it
is modelled as a separate `handleAuthStateChange` invocation.) -/
def fbSignInOp (env : FirebaseEnv) (token : String) (w : World) :
    Option AuthError × World :=
  let w1 : World := { w with trace := w.trace ++ [Event.fbSignIn token] }
  match env.signInResult token with
  | some u => (none, { w1 with fb := { w1.fb with currentUser := some u } })
  | none => (some AuthError.signInError, w1)

/-- The raw provider call `signOut(this.auth)`: on success the provider's
current user is cleared; on failure it rejects and the client state is
unchanged.  The attempt is traced either way. -/
def fbSignOutOp (env : FirebaseEnv) (w : World) : Option AuthError × World :=
  let w1 : World := { w with trace := w.trace ++ [Event.fbSignOut] }
  if env.signOutOk then
    (none, { w1 with fb := { w1.fb with currentUser := none } })
  else
    (some AuthError.signOutError, w1)

/-- Source: `async signInWithCustomToken(token)` — logs and delegates to the
provider; a provider rejection propagates to the direct caller. -/
def signInWithCustomToken (env : FirebaseEnv) (token : String) (w : World) :
    Option AuthError × World :=
  fbSignInOp env token w

/-- Source: `async signOut()` — logs and delegates to the provider; a
provider rejection propagates to the direct caller. -/
def signOut (env : FirebaseEnv) (w : World) : Option AuthError × World :=
  fbSignOutOp env w

/-- Source: `getCurrentUser()` — returns `this.auth.currentUser`. -/
def getCurrentUser (w : World) : Option User :=
  w.fb.currentUser

/-- Source: `private async handleAuthStateChange(user)` — if the weak host
reference is dead, return silently; if a user is present, store its public
profile; otherwise clear the stored token and the profile; in both live
cases post the host state to the webview. -/
def handleAuthStateChange (user : Option User) (w : World) : World :=
  match w.host with
  | none => w
  | some _ =>
    match user with
    | some u => hostPostStateToWebview (hostSetUserInfo (some (profileOf u)) w)
    | none =>
        hostPostStateToWebview (hostSetUserInfo none (hostSetAuthToken none w))

/-- Source: `private async restoreSession()` — if the weak host reference is
dead, return silently.  If the provider already has a current user, copy its
profile into host state and return.  Otherwise read the stored token; the
guard `if (storedToken)` is JavaScript truthiness on a
`string | undefined`, so it enters the sign-in branch only when the token
is present AND nonempty (an empty string is falsy and is treated like no
token).  When it enters, try `signInWithCustomToken`; on failure log, clear
the stored token and the profile, then attempt `signOut`, logging (only) a
failure of that cleanup.  No error ever propagates out of
`restoreSession`. -/
def restoreSession (env : FirebaseEnv) (w : World) : Option AuthError × World :=
  match w.host with
  | none => (none, w)
  | some _ =>
    match w.fb.currentUser with
    | some u => (none, hostSetUserInfo (some (profileOf u)) w)
    | none =>
      match hostGetSecret "authToken" w with
      | (some t, w1) =>
        if t = "" then (none, w1)
        else
          match signInWithCustomToken env t w1 with
          | (none, w2) => (none, w2)
          | (some _, w2) =>
            let w3 : World :=
              { w2 with trace := w2.trace ++ [Event.logError "restoreFail"] }
            let w4 := hostSetUserInfo none (hostSetAuthToken none w3)
            match signOut env w4 with
            | (none, w5) => (none, w5)
            | (some _, w5) =>
              (none, { w5 with trace := w5.trace ++ [Event.logError "cleanupFail"] })
      | (none, w1) => (none, w1)

/-- The manager object itself: the only instance state the model must keep
is the `disposables` array (`private disposables: vscode.Disposable[] = []`);
the weak host reference and the `Auth` client live in `World`. -/
structure FirebaseAuthManager where
  disposables : List Nat
deriving Repr, DecidableEq

/-- Source: the constructor — stores the weak host reference, initializes
the Firebase app (the provider may recover a persisted session, supplied as
`initUser`), calls `setPersistence` with `.then/.catch` so a failure is
only logged, registers the auth-state listener (discarding the returned
unsubscribe function), and fires `restoreSession`. -/
def construct (env : FirebaseEnv) (initUser : Option User)
    (host : Option HostState) : FirebaseAuthManager × World :=
  let w0 : World := ⟨host, ⟨initUser, false⟩, []⟩
  let w1 : World :=
    if env.persistOk then
      { w0 with trace := w0.trace ++ [Event.fbSetPersistence] }
    else
      { w0 with trace := w0.trace ++ [Event.fbSetPersistence, Event.logError "persistenceFail"] }
  let w2 : World := { w1 with fb := { w1.fb with listenerRegistered := true } }
  (⟨[]⟩, (restoreSession env w2).2)

/-- Source: `dispose()` — `this.disposables.forEach((d) => d.dispose())`. -/
def dispose (m : FirebaseAuthManager) (w : World) : World :=
  m.disposables.foldl
    (fun acc d => { acc with trace := acc.trace ++ [Event.disposed d] }) w

/-- Deliver a sequence of provider auth-state-change events to the
registered callback, in order. -/
def runEvents (evs : List (Option User)) (w : World) : World :=
  evs.foldl (fun acc u => handleAuthStateChange u acc) w

/-- The events an operation appended to the trace: the final trace with the
initial trace's prefix dropped. -/
def newEvents (w wNew : World) : List Event :=
  wNew.trace.drop w.trace.length

/-- The host state reached from `s` by one live callback invocation. -/
def hascState (u : Option User) (s : HostState) : HostState :=
  match u with
  | some v => { s with userInfo := some (profileOf v) }
  | none => ⟨none, none⟩

/-- The events one live callback invocation appends. -/
def hascEvents (u : Option User) : List Event :=
  match u with
  | some v => [Event.setUserInfo (some (profileOf v)), Event.postStateToWebview]
  | none => [Event.setAuthToken none, Event.setUserInfo none, Event.postStateToWebview]

/-- A concrete provider user for concrete evaluations. -/
def alice : User :=
  ⟨"uid1", some "Alice", some "a@x.com", none⟩

/-- An environment where sign-in always succeeds as `alice` and sign-out
succeeds. -/
def envSucc : FirebaseEnv :=
  ⟨true, fun _ => some alice, true⟩

/-- An environment where sign-in always fails and sign-out also fails. -/
def envFail : FirebaseEnv :=
  ⟨true, fun _ => none, false⟩

/-- A concrete starting world: live host with stored token `"abc123"`, no
profile, no provider user, listener registered, empty trace. -/
def wTok : World :=
  ⟨some ⟨none, some "abc123"⟩, ⟨none, true⟩, []⟩

end ClineAuth

namespace ClineAuth

/-- A world with a live host but no provider user, stored token absent. -/
def wEmpty : World :=
  ⟨some ⟨none, none⟩, ⟨none, true⟩, []⟩

/-- A world with a live host, no provider user, and a stored token that is
the empty string — present in secret storage but falsy under the source's
`if (storedToken)` guard. -/
def wTokEmpty : World :=
  ⟨some ⟨none, some ""⟩, ⟨none, true⟩, []⟩

end ClineAuth

namespace ClineAuth

/-- One live callback invocation: host state becomes `hascState u s`, the
Firebase state is untouched, and `hascEvents u` is appended to the trace. -/
theorem hasc_eq (u : Option User) (s : HostState) (fb : FirebaseState)
    (tr : List Event) :
    handleAuthStateChange u ⟨some s, fb, tr⟩ =
      ⟨some (hascState u s), fb, tr ++ hascEvents u⟩ := by
  cases u <;>
    simp [handleAuthStateChange, hostSetUserInfo, hostSetAuthToken,
      hostPostStateToWebview, hascState, hascEvents]

/-- Full characterization of `restoreSession` on any world: it never
returns an error, it never changes `listenerRegistered`, it only appends
to the trace, and no appended event writes a present token value. -/
theorem restore_delta (env : FirebaseEnv) (host : Option HostState)
    (fb : FirebaseState) (tr : List Event) :
    ∃ h2 cu2 δ,
      restoreSession env ⟨host, fb, tr⟩ =
        (none, ⟨h2, ⟨cu2, fb.listenerRegistered⟩, tr ++ δ⟩) ∧
      δ.filter Event.isTokenWrite = [] := by
  obtain ⟨cu, reg⟩ := fb
  cases host with
  | none => exact ⟨none, cu, [], by simp [restoreSession], rfl⟩
  | some s =>
    obtain ⟨ui, tok⟩ := s
    cases cu with
    | some u =>
      exact ⟨some ⟨some (profileOf u), tok⟩, some u,
        [Event.setUserInfo (some (profileOf u))],
        by simp [restoreSession, hostSetUserInfo], rfl⟩
    | none =>
      cases tok with
      | none =>
        exact ⟨some ⟨ui, none⟩, none, [Event.getSecret "authToken"],
          by simp [restoreSession, hostGetSecret], rfl⟩
      | some t =>
        by_cases ht : t = ""
        · exact ⟨some ⟨ui, some t⟩, none, [Event.getSecret "authToken"],
            by simp [restoreSession, hostGetSecret, ht], rfl⟩
        · cases hsi : env.signInResult t with
          | some u =>
            exact ⟨some ⟨ui, some t⟩, some u,
              [Event.getSecret "authToken", Event.fbSignIn t],
              by simp [restoreSession, hostGetSecret, signInWithCustomToken,
                fbSignInOp, hsi, ht], rfl⟩
          | none =>
            cases hso : env.signOutOk with
            | true =>
              exact ⟨some ⟨none, none⟩, none,
                [Event.getSecret "authToken", Event.fbSignIn t,
                 Event.logError "restoreFail", Event.setAuthToken none,
                 Event.setUserInfo none, Event.fbSignOut],
                by simp [restoreSession, hostGetSecret, signInWithCustomToken,
                  fbSignInOp, hsi, signOut, fbSignOutOp, hso, hostSetAuthToken,
                  hostSetUserInfo, ht], rfl⟩
            | false =>
              exact ⟨some ⟨none, none⟩, none,
                [Event.getSecret "authToken", Event.fbSignIn t,
                 Event.logError "restoreFail", Event.setAuthToken none,
                 Event.setUserInfo none, Event.fbSignOut,
                 Event.logError "cleanupFail"],
                by simp [restoreSession, hostGetSecret, signInWithCustomToken,
                  fbSignInOp, hsi, signOut, fbSignOutOp, hso, hostSetAuthToken,
                  hostSetUserInfo, ht], rfl⟩

/-- `restoreSession` preserves the listener-registration flag. -/
theorem restore_reg (env : FirebaseEnv) (w : World) :
    ((restoreSession env w).2).fb.listenerRegistered =
      w.fb.listenerRegistered := by
  obtain ⟨host, fb, tr⟩ := w
  obtain ⟨h2, cu2, δ, heq, -⟩ := restore_delta env host fb tr
  rw [heq]

/-- C8: when the weak host reference cannot be resolved, both
`restoreSession` and the auth-state-change callback are silent no-ops: the
world is returned unchanged (no host-state mutation, no secret read or
write, no sign-in or sign-out attempt, no event at all) and no error is
raised. -/
theorem dead_host_noop (env : FirebaseEnv) (fb : FirebaseState)
    (tr : List Event) (u : Option User) :
    restoreSession env ⟨none, fb, tr⟩ = (none, ⟨none, fb, tr⟩) ∧
    handleAuthStateChange u ⟨none, fb, tr⟩ = ⟨none, fb, tr⟩ :=
  ⟨rfl, rfl⟩

/-- C5: every live auth-state-change callback invocation writes the user's
profile into host state when a user is present, clears both the stored
token and the profile when it is absent, and in both cases calls
`postStateToWebview` afterwards (it is the final traced event). -/
theorem handleAuthStateChange_spec (s : HostState) (fb : FirebaseState)
    (tr : List Event) :
    (∀ u : User,
      handleAuthStateChange (some u) ⟨some s, fb, tr⟩ =
        ⟨some ⟨some (profileOf u), s.authToken⟩, fb,
          tr ++ [Event.setUserInfo (some (profileOf u)),
                 Event.postStateToWebview]⟩) ∧
    handleAuthStateChange none ⟨some s, fb, tr⟩ =
      ⟨some ⟨none, none⟩, fb,
        tr ++ [Event.setAuthToken none, Event.setUserInfo none,
               Event.postStateToWebview]⟩ := by
  constructor
  · intro u
    simp [handleAuthStateChange, hostSetUserInfo, hostPostStateToWebview]
  · simp [handleAuthStateChange, hostSetUserInfo, hostSetAuthToken,
      hostPostStateToWebview]

/-- C6: `signInWithCustomToken` and `signOut` each only delegate to the
provider, propagating a provider failure to their direct caller; in
particular a failing `signOut` returns `signOutError`, leaves the host
state untouched, and neither operation emits a `setAuthToken`,
`setUserInfo` or `postStateToWebview` event (the only traced event is the
provider call itself). -/
theorem explicit_ops_delegate (env : FirebaseEnv) (t : String) (w : World) :
    signInWithCustomToken env t w =
      (match env.signInResult t with
       | some u =>
         (none, ⟨w.host, ⟨some u, w.fb.listenerRegistered⟩,
           w.trace ++ [Event.fbSignIn t]⟩)
       | none =>
         (some AuthError.signInError, ⟨w.host, w.fb,
           w.trace ++ [Event.fbSignIn t]⟩)) ∧
    signOut env w =
      (if env.signOutOk then
        (none, ⟨w.host, ⟨none, w.fb.listenerRegistered⟩,
          w.trace ++ [Event.fbSignOut]⟩)
       else
        (some AuthError.signOutError, ⟨w.host, w.fb,
          w.trace ++ [Event.fbSignOut]⟩)) := by
  constructor
  · cases hsi : env.signInResult t <;>
      simp [signInWithCustomToken, fbSignInOp, hsi]
  · cases hso : env.signOutOk <;> simp [signOut, fbSignOutOp, hso]

/-- C10: the constructed manager's `disposables` list is empty and no
operation appends to it, so `dispose` changes nothing — in particular the
auth-state listener registered at construction is still registered after
`dispose`. -/
theorem construct_dispose_inert (env : FirebaseEnv) (iu : Option User)
    (host : Option HostState) (w : World) :
    (construct env iu host).1.disposables = [] ∧
    dispose (construct env iu host).1 w = w ∧
    ((construct env iu host).2).fb.listenerRegistered = true ∧
    (dispose (construct env iu host).1
        ((construct env iu host).2)).fb.listenerRegistered = true := by
  have hreg : ((construct env iu host).2).fb.listenerRegistered = true := by
    cases hp : env.persistOk <;> simp [construct, hp, restore_reg]
  exact ⟨rfl, rfl, hreg, hreg⟩

/-- C2: when the provider already reports a user, a live `restoreSession`
writes exactly that user's `displayName`, `email` and `photoURL` into host
state via `setUserInfo`, returns without error, and the only event it
appends is that `setUserInfo` call — in particular it never reads a secret
(`getSecret` is never called, so the stored token is never read) and never
attempts a provider sign-in or sign-out. -/
theorem restore_existing_session (env : FirebaseEnv) (u : User)
    (s : HostState) (reg : Bool) (tr : List Event) :
    restoreSession env ⟨some s, ⟨some u, reg⟩, tr⟩ =
      (none, ⟨some ⟨some (profileOf u), s.authToken⟩, ⟨some u, reg⟩,
        tr ++ [Event.setUserInfo (some (profileOf u))]⟩) ∧
    (newEvents ⟨some s, ⟨some u, reg⟩, tr⟩
        ((restoreSession env ⟨some s, ⟨some u, reg⟩, tr⟩).2)).filter
        Event.isGetSecret = [] ∧
    (newEvents ⟨some s, ⟨some u, reg⟩, tr⟩
        ((restoreSession env ⟨some s, ⟨some u, reg⟩, tr⟩).2)).filter
        Event.isFbSignIn = [] ∧
    (newEvents ⟨some s, ⟨some u, reg⟩, tr⟩
        ((restoreSession env ⟨some s, ⟨some u, reg⟩, tr⟩).2)).filter
        Event.isFbSignOut = [] := by
  refine ⟨rfl, ?_, ?_, ?_⟩ <;>
    simp [newEvents, restoreSession, hostSetUserInfo, List.drop_left,
      Event.isGetSecret, Event.isFbSignIn, Event.isFbSignOut]

/-- C3 amended: when the provider reports no user and the stored token is
present and nonempty (the source's truthy guard `if (storedToken)` treats
an empty string like no token), a live `restoreSession` attempts the
provider sign-in exactly once, with exactly the stored token value; and
when that sign-in succeeds the whole run appends only the secret read and
the sign-in attempt — no `setAuthToken` call (no stored-token mutation)
and no `setUserInfo` call (no direct profile write) — and returns without
error. -/
theorem restore_stored_token (env : FirebaseEnv) (ui : Option UserInfo)
    (t : String) (reg : Bool) (tr : List Event) (ht : t ≠ "") :
    (newEvents ⟨some ⟨ui, some t⟩, ⟨none, reg⟩, tr⟩
        ((restoreSession env ⟨some ⟨ui, some t⟩, ⟨none, reg⟩, tr⟩).2)).filter
        Event.isFbSignIn = [Event.fbSignIn t] ∧
    ∀ u : User, env.signInResult t = some u →
      restoreSession env ⟨some ⟨ui, some t⟩, ⟨none, reg⟩, tr⟩ =
        (none, ⟨some ⟨ui, some t⟩, ⟨some u, reg⟩,
          tr ++ [Event.getSecret "authToken", Event.fbSignIn t]⟩) := by
  constructor
  · cases hsi : env.signInResult t with
    | some u =>
      simp [newEvents, restoreSession, hostGetSecret, signInWithCustomToken,
        fbSignInOp, hsi, ht, List.drop_left, Event.isFbSignIn]
    | none =>
      cases hso : env.signOutOk <;>
        simp [newEvents, restoreSession, hostGetSecret, signInWithCustomToken,
          fbSignInOp, hsi, ht, signOut, fbSignOutOp, hso, hostSetAuthToken,
          hostSetUserInfo, List.drop_left, Event.isFbSignIn]
  · intro u hu
    simp [restoreSession, hostGetSecret, signInWithCustomToken, fbSignInOp,
      hu, ht]

/-- C3 counterexample: a stored token that is the empty string is a present
token (`getSecret` returns `some ""`), yet with no current provider user
`restoreSession` makes no sign-in attempt whatsoever — the truthy guard
`if (storedToken)` treats `""` as absent — even against a provider that
would accept any token; this refutes "a present token is signed in with
exactly once". -/
theorem restore_empty_token_no_signin_cex :
    (newEvents wTokEmpty ((restoreSession envSucc wTokEmpty).2)).filter
      Event.isFbSignIn = [] ∧
    restoreSession envSucc wTokEmpty =
      (none, ⟨some ⟨none, some ""⟩, ⟨none, true⟩,
        [Event.getSecret "authToken"]⟩) :=
  ⟨rfl, rfl⟩

/-- C3 witness: with stored nonempty token `"abc123"`, no provider user
and a succeeding sign-in, `restoreSession` signs in exactly once with
`"abc123"` and mutates neither the stored token nor the profile. -/
theorem restore_stored_token_witness :
    (newEvents wTok ((restoreSession envSucc wTok).2)).filter
        Event.isFbSignIn = [Event.fbSignIn "abc123"] ∧
    restoreSession envSucc wTok =
      (none, ⟨some ⟨none, some "abc123"⟩, ⟨some alice, true⟩,
        [Event.getSecret "authToken", Event.fbSignIn "abc123"]⟩) :=
  ⟨(restore_stored_token envSucc none "abc123" true [] (by decide)).1,
   (restore_stored_token envSucc none "abc123" true [] (by decide)).2
     alice rfl⟩

/-- C4: when the stored-token sign-in during `restoreSession` fails — a
sign-in is attempted exactly when the stored token is present and nonempty
(the source's truthy guard), and it fails when the provider rejects that
token — the run returns without error (for any sign-out outcome), the
stored token and the profile end up cleared, and a provider sign-out was
attempted; when that sign-out also fails, the only extra effect is a
logged error. -/
theorem restore_failed_signin (env : FirebaseEnv) (ui : Option UserInfo)
    (t : String) (reg : Bool) (tr : List Event) (ht : t ≠ "")
    (hfail : env.signInResult t = none) :
    (restoreSession env ⟨some ⟨ui, some t⟩, ⟨none, reg⟩, tr⟩).1 = none ∧
    ((restoreSession env ⟨some ⟨ui, some t⟩, ⟨none, reg⟩, tr⟩).2).host =
      some ⟨none, none⟩ ∧
    (newEvents ⟨some ⟨ui, some t⟩, ⟨none, reg⟩, tr⟩
        ((restoreSession env ⟨some ⟨ui, some t⟩, ⟨none, reg⟩, tr⟩).2)).filter
        Event.isFbSignOut = [Event.fbSignOut] ∧
    (env.signOutOk = false →
      restoreSession env ⟨some ⟨ui, some t⟩, ⟨none, reg⟩, tr⟩ =
        (none, ⟨some ⟨none, none⟩, ⟨none, reg⟩,
          tr ++ [Event.getSecret "authToken", Event.fbSignIn t,
                 Event.logError "restoreFail", Event.setAuthToken none,
                 Event.setUserInfo none, Event.fbSignOut,
                 Event.logError "cleanupFail"]⟩)) := by
  refine ⟨?_, ?_, ?_, ?_⟩
  · cases hso : env.signOutOk <;>
      simp [restoreSession, hostGetSecret, signInWithCustomToken, fbSignInOp,
        hfail, ht, signOut, fbSignOutOp, hso, hostSetAuthToken,
        hostSetUserInfo]
  · cases hso : env.signOutOk <;>
      simp [restoreSession, hostGetSecret, signInWithCustomToken, fbSignInOp,
        hfail, ht, signOut, fbSignOutOp, hso, hostSetAuthToken,
        hostSetUserInfo]
  · cases hso : env.signOutOk <;>
      simp [newEvents, restoreSession, hostGetSecret, signInWithCustomToken,
        fbSignInOp, hfail, ht, signOut, fbSignOutOp, hso, hostSetAuthToken,
        hostSetUserInfo, List.drop_left, Event.isFbSignOut]
  · intro hso
    simp [restoreSession, hostGetSecret, signInWithCustomToken, fbSignInOp,
      hfail, ht, signOut, fbSignOutOp, hso, hostSetAuthToken,
      hostSetUserInfo]

/-- C4 witness: with stored token `"abc123"`, a failing sign-in and a
failing cleanup sign-out, `restoreSession` clears token and profile,
attempts the sign-out, logs the cleanup failure and returns no error. -/
theorem restore_failed_signin_witness :
    (restoreSession envFail wTok).1 = none ∧
    restoreSession envFail wTok =
      (none, ⟨some ⟨none, none⟩, ⟨none, true⟩,
        [Event.getSecret "authToken", Event.fbSignIn "abc123",
         Event.logError "restoreFail", Event.setAuthToken none,
         Event.setUserInfo none, Event.fbSignOut,
         Event.logError "cleanupFail"]⟩) :=
  ⟨(restore_failed_signin envFail none "abc123" true [] (by decide) rfl).1,
   (restore_failed_signin envFail none "abc123" true [] (by decide)
       rfl).2.2.2 rfl⟩

/-- C9: a failure of the provider's session-persistence setting during
construction is only logged: construction still completes (the constructor
is total), the auth-state listener ends up registered, the two leading
trace events are the persistence attempt and the logged error, and
restoration still runs on the post-registration world. -/
theorem construct_persist_failure (sir : String → Option User) (soOk : Bool)
    (iu : Option User) (host : Option HostState) :
    ((construct ⟨false, sir, soOk⟩ iu host).2).fb.listenerRegistered = true ∧
    ((construct ⟨false, sir, soOk⟩ iu host).2).trace.take 2 =
      [Event.fbSetPersistence, Event.logError "persistenceFail"] ∧
    (construct ⟨false, sir, soOk⟩ iu host).2 =
      (restoreSession ⟨false, sir, soOk⟩
        ⟨host, ⟨iu, true⟩,
         [Event.fbSetPersistence, Event.logError "persistenceFail"]⟩).2 := by
  obtain ⟨h2, cu2, δ, heq, -⟩ :=
    restore_delta ⟨false, sir, soOk⟩ host ⟨iu, true⟩
      [Event.fbSetPersistence, Event.logError "persistenceFail"]
  have hc : (construct ⟨false, sir, soOk⟩ iu host).2 =
      (restoreSession ⟨false, sir, soOk⟩
        ⟨host, ⟨iu, true⟩,
         [Event.fbSetPersistence, Event.logError "persistenceFail"]⟩).2 := rfl
  refine ⟨?_, ?_, hc⟩
  · rw [hc, heq]
  · rw [hc, heq]
    rfl

/-- C1: for every nonempty sequence of auth-state events delivered to the
callback with the host reference alive, after the last callback completes
the host state holds a profile exactly when the last event carried a user,
and when the last event carried no user the host state also holds no
stored token. -/
theorem runEvents_profile_matches_last (evs : List (Option User))
    (e : Option User) (s : HostState) (fb : FirebaseState) (tr : List Event)
    (h : evs.getLast? = some e) :
    ∃ s2, (runEvents evs ⟨some s, fb, tr⟩).host = some s2 ∧
      s2.userInfo.isSome = e.isSome ∧ (e = none → s2.authToken = none) := by
  induction evs generalizing s fb tr with
  | nil => simp at h
  | cons u rest ih =>
    cases rest with
    | nil =>
      have he : u = e := by simpa using h
      subst he
      have hr : runEvents [u] ⟨some s, fb, tr⟩ =
          handleAuthStateChange u ⟨some s, fb, tr⟩ := rfl
      refine ⟨hascState u s, ?_, ?_, ?_⟩
      · rw [hr, hasc_eq]
      · cases u <;> simp [hascState]
      · intro he2
        subst he2
        rfl
    | cons v rest2 =>
      have h2 : (v :: rest2).getLast? = some e := by
        rwa [List.getLast?_cons_cons] at h
      have hr : runEvents (u :: v :: rest2) ⟨some s, fb, tr⟩ =
          runEvents (v :: rest2)
            (handleAuthStateChange u ⟨some s, fb, tr⟩) := rfl
      rw [hr, hasc_eq]
      exact ih (hascState u s) fb (tr ++ hascEvents u) h2

/-- C1 witness: after the event sequence `[signed in as alice, signed out]`
delivered to a live host that held a profile and a token, the host state
holds no profile and no stored token. -/
theorem runEvents_profile_matches_last_witness :
    ∃ s2, (runEvents [some alice, none]
        ⟨some ⟨some (profileOf alice), some "tok"⟩, ⟨none, true⟩, []⟩).host =
          some s2 ∧
      s2.userInfo.isSome = (none : Option User).isSome ∧
      ((none : Option User) = none → s2.authToken = none) :=
  runEvents_profile_matches_last [some alice, none] none
    ⟨some (profileOf alice), some "tok"⟩ ⟨none, true⟩ [] rfl

/-- C7 counterexample: a successful explicit sign-in (here with token
`"abc123"` against a provider that accepts it) never calls `setAuthToken`:
the trace holds no `setAuthToken` event at all and the persisted token in
host state is still absent afterwards, refuting "after a sign-in that
succeeds, setAuthToken is called with the token value, so the persisted
token is present". -/
theorem signin_success_no_token_write_cex :
    (signInWithCustomToken envSucc "abc123" wEmpty).1 = none ∧
    ((signInWithCustomToken envSucc "abc123" wEmpty).2).trace.filter
      Event.isSetAuthToken = [] ∧
    ((signInWithCustomToken envSucc "abc123" wEmpty).2).host =
      some ⟨none, none⟩ :=
  ⟨rfl, rfl, rfl⟩

/-- C7 amended: the manager itself never writes a present token value into
the host controller's secret storage: `signInWithCustomToken` only
delegates to the provider, and neither it, nor `restoreSession`, nor the
auth-state callback ever adds a `setAuthToken` event carrying a value
(every `setAuthToken` the manager makes clears the token); persisting the
token on successful sign-in is the host controller's job outside this
module. -/
theorem manager_never_writes_token (env : FirebaseEnv) (t : String)
    (u : Option User) (w : World) :
    ((signInWithCustomToken env t w).2).trace.filter Event.isTokenWrite =
      w.trace.filter Event.isTokenWrite ∧
    ((restoreSession env w).2).trace.filter Event.isTokenWrite =
      w.trace.filter Event.isTokenWrite ∧
    (handleAuthStateChange u w).trace.filter Event.isTokenWrite =
      w.trace.filter Event.isTokenWrite := by
  refine ⟨?_, ?_, ?_⟩
  · cases hsi : env.signInResult t <;>
      simp [signInWithCustomToken, fbSignInOp, hsi, List.filter_append,
        Event.isTokenWrite]
  · obtain ⟨host, fb, tr⟩ := w
    obtain ⟨h2, cu2, δ, heq, hδ⟩ := restore_delta env host fb tr
    rw [heq]
    simp [List.filter_append, hδ]
  · obtain ⟨host, fb, tr⟩ := w
    cases host with
    | none => rfl
    | some s =>
      rw [hasc_eq]
      cases u <;>
        simp [hascEvents, List.filter_append, Event.isTokenWrite]
